import Mathlib

/-!
Verification of the ReviewBuddy review-generation core against its
natural-language specification.

The Python sources are shallowly embedded: pure string manipulation is
translated to executable Lean functions over `String`/`List Char`; the
I/O boundaries (HTTP requests, subprocesses, the scratch filesystem) are
passed in explicitly as environment values, and Python exceptions that a
function lets escape are modelled with `Except`.  Python-dict results
with optional keys are modelled as structures of `Option` fields.
-/

/-! ## Python string primitives

Helpers mirroring the exact semantics of the Python `str` methods used
by the sources (`strip`, `lower`, `split('\n')`, `startswith`,
`in`-containment, `lstrip(chars)`, `list.index`). -/

/-- The character class removed by Python `str.strip()` (ASCII whitespace). -/
def pyIsSpace (c : Char) : Bool :=
  c == ' ' || c == '\t' || c == '\n' || c == '\r' || c == '\x0b' || c == '\x0c'

/-- `str.strip()` on the underlying character list. -/
def pyStripList (l : List Char) : List Char :=
  ((l.dropWhile pyIsSpace).reverse.dropWhile pyIsSpace).reverse

/-- Python `str.strip()`. -/
def pyStrip (s : String) : String := ⟨pyStripList s.data⟩

/-- Python `str.lower()` (ASCII case folding). -/
def pyLower (s : String) : String := ⟨s.data.map Char.toLower⟩

/-- Python `str.startswith(pre)`. -/
def pyStartswith (s pre : String) : Bool := pre.data.isPrefixOf s.data

/-- Occurrence of `sub` as a contiguous sublist of `l`. -/
def containsList (sub : List Char) : List Char → Bool
  | [] => sub.isPrefixOf []
  | c :: t => sub.isPrefixOf (c :: t) || containsList sub t

/-- Python `sub in s` substring containment. -/
def containsSub (s sub : String) : Bool := containsList sub.data s.data

/-- `str.split(sep)` for a one-character separator, keeping empty pieces,
on the underlying character list (matches Python: `"".split('\n') = [""]`). -/
def splitOnChar (c : Char) : List Char → List (List Char)
  | [] => [[]]
  | x :: xs =>
    let r := splitOnChar c xs
    if x == c then [] :: r
    else
      match r with
      | h :: t => (x :: h) :: t
      | [] => [[x]]

/-- Python `response_text.split('\n')`. -/
def pySplitNewline (s : String) : List String :=
  (splitOnChar '\n' s.data).map (fun l => ⟨l⟩)

/-- Python `str.lstrip(chars)`: drop leading characters drawn from `chars`. -/
def pyLstrip (chars : List Char) (s : String) : String :=
  ⟨s.data.dropWhile (fun c => chars.contains c)⟩

/-- Python `list.index(x)`: index of the first occurrence, `none` when absent
(where Python raises `ValueError`). -/
def pyIndex : List String → String → Option Nat
  | [], _ => none
  | x :: t, s => if x == s then some 0 else (pyIndex t s).map (· + 1)

/-! ## Data model (src/providers/base_provider.py and callers) -/

/-- One suggestion record produced by the response parser:
`{"title": ..., "description": ...}`. -/
structure Suggestion where
  title : String
  description : String
deriving Repr, DecidableEq, Inhabited

/-- The structured record returned by `AIProvider._parse_response`:
`{"summary": ..., "suggestions": [...]}`. -/
structure ReviewResult where
  summary : String
  suggestions : List Suggestion
deriving Repr, DecidableEq, Inhabited

/-! ## Response parser (`AIProvider._parse_response`)

Line-oriented heuristic from src/providers/base_provider.py lines 52-104
(textually duplicated in src/ai_integration.py lines 101-153).  Two
statements of the source are partial and are modelled with `Except`:

* `lines.index(line)` raises `ValueError` when the stripped line does not
  occur verbatim among the raw lines;
* `line[1]` raises `IndexError` when the line is a single digit character
  (the guard checks only `line[0].isdigit()` before reading `line[1]`).
-/

/-- The character set of `line.lstrip("- *0123456789. ")`. -/
def bulletChars : List Char := "- *0123456789. ".data

/-- The inner summary scan: `for i in range(summary_start, len(lines))`,
skipping blank lines, stopping at a line containing "issue" or
"suggestion", concatenating each kept raw line plus a space. -/
def summaryScan : List String → String
  | [] => ""
  | l :: rest =>
    if pyStrip l == "" then summaryScan rest
    else if containsSub (pyLower l) "issue" || containsSub (pyLower l) "suggestion" then ""
    else (l ++ " ") ++ summaryScan rest

/-- The bullet-pattern test
`line.startswith("- ") or line.startswith("* ") or (line[0].isdigit() and line[1] == '.')`,
evaluated left to right; reading `line[1]` on a one-character digit line
raises `IndexError`. -/
def bulletCheck (line : String) : Except String Bool :=
  if pyStartswith line "- " || pyStartswith line "* " then .ok true
  else
    match line.data with
    | [] => .ok false
    | c0 :: rest =>
      if c0.isDigit then
        match rest with
        | [] => .error "IndexError"
        | c1 :: _ => .ok (c1 == '.')
      else .ok false

/-- `suggestions.append(current_suggestion)` guarded by `if current_suggestion:`. -/
def appendCur (sugg : List Suggestion) (cur : Option Suggestion) : List Suggestion :=
  match cur with
  | some c => sugg ++ [c]
  | none => sugg

/-- The main `for line in lines` loop of `_parse_response`, carrying the
full raw line list (needed by `lines.index`) and the mutable state
`(summary, suggestions, current_suggestion)`. -/
def parseLoop (allLines : List String) :
    List String → String → List Suggestion → Option Suggestion →
    Except String (String × List Suggestion × Option Suggestion)
  | [], summary, sugg, cur => .ok (summary, sugg, cur)
  | l :: rest, summary, sugg, cur =>
    let line := pyStrip l
    if line == "" then parseLoop allLines rest summary sugg cur
    else
      match
        (if containsSub (pyLower line) "summary" && summary == "" then
          match pyIndex allLines line with
          | none => Except.error "ValueError"
          | some idx => Except.ok (summary ++ summaryScan (allLines.drop (idx + 1)))
        else Except.ok summary) with
      | .error e => .error e
      | .ok summary1 =>
        match bulletCheck line with
        | .error e => .error e
        | .ok true =>
          parseLoop allLines rest summary1 (appendCur sugg cur)
            (some { title := pyLstrip bulletChars line, description := "" })
        | .ok false =>
          match cur with
          | some c =>
            parseLoop allLines rest summary1 sugg
              (some { title := c.title, description := c.description ++ line ++ " " })
          | none => parseLoop allLines rest summary1 sugg none

/-- `AIProvider._parse_response`: split on newlines, run the line loop,
append a still-open suggestion, and strip the summary (descriptions are
returned as accumulated, without a final strip). -/
def parse_response (response_text : String) : Except String ReviewResult :=
  let lines := pySplitNewline response_text
  match parseLoop lines lines "" [] none with
  | .error e => .error e
  | .ok (summary, sugg, cur) => .ok ⟨pyStrip summary, appendCur sugg cur⟩

/-! ## Severity model (src/static_analysis.py lines 348-389) -/

/-- The `severity_levels` dict of `is_severity_included`. -/
def severity_levels : List (String × Nat) := [("error", 3), ("warning", 2), ("info", 1)]

/-- `is_severity_included(severity, threshold)`: compare the looked-up
ordinals, unknown strings defaulting to 0 (`.get(x.lower(), 0)`). -/
def is_severity_included (severity threshold : String) : Bool :=
  let issue_level := (severity_levels.lookup (pyLower severity)).getD 0
  let threshold_level := (severity_levels.lookup (pyLower threshold)).getD 0
  decide (threshold_level ≤ issue_level)

/-- `map_pylint_severity`: the fixed pylint-category table, unknown
categories mapping to `"info"`. -/
def map_pylint_severity (pylint_type : String) : String :=
  (([("fatal", "error"), ("error", "error"), ("warning", "warning"),
     ("convention", "info"), ("refactor", "info"), ("info", "info")] :
     List (String × String)).lookup (pyLower pylint_type)).getD "info"

/-- `map_eslint_severity`: the numeric eslint table, unknown numbers
mapping to `"info"`. -/
def map_eslint_severity (eslint_severity : Int) : String :=
  (([(0, "info"), (1, "warning"), (2, "error")] :
     List (Int × String)).lookup eslint_severity).getD "info"

/-- Modelled from the spec's words (for comparison only): the ordinal
assignment "error=3, warning=2, info=1" named by the claims. -/
def claimOrdinal (s : String) : Nat :=
  if s = "error" then 3 else if s = "warning" then 2 else if s = "info" then 1 else 0

/-! ## Python optional values and exceptions -/

/-- Truthiness of an optional Python string (`None` and `""` are falsy). -/
def truthyStr : Option String → Bool
  | none => false
  | some s => !(s == "")

/-- A raised Python exception, identified by class name and message. -/
structure PyExc where
  name : String
  msg : String
deriving Repr, DecidableEq, Inhabited

/-! ## Model providers (src/providers/api_provider.py, ollama_provider.py)

`analyze_pr` performs one blocking HTTP request; the outcome of that
request (including raised `requests` exceptions and the shape of the
decoded JSON body) is supplied as an explicit environment value, and the
provider's own `try/except` structure is translated around it. -/

/-- A Python value at a point where the code expects a string (a decoded
JSON field may hold any type). -/
inductive PyVal where
  | str (s : String)
  | nonstr
deriving Repr, DecidableEq

/-- An entry of the `suggestions` list of an `analyze_pr` result: the
Ollama failure paths use plain strings, the parser produces
title/description records. -/
inductive PySuggestion where
  | str (s : String)
  | record (sg : Suggestion)
deriving Repr, DecidableEq

/-- The Python dict returned by `analyze_pr`, with each key optional:
the providers return either `{'summary': ..., 'suggestions': [...]}` or
(APIProvider failure paths) `{'error': ...}`. -/
structure PyDictResult where
  summary : Option String
  suggestions : Option (List PySuggestion)
  error : Option String
deriving Repr, DecidableEq

/-- A file entry as consumed by the providers (`f.get('filename', 'unknown')`). -/
structure ApiFile where
  filename : Option String
deriving Repr, DecidableEq

/-- State of a constructed `OllamaProvider` (its `__init__` fields). -/
structure OllamaProviderState where
  base_url : String
  model_name : String
  timeout : Int
deriving Repr, DecidableEq

/-- State of a constructed `APIProvider` (its `__init__` fields). -/
structure ApiProviderState where
  api_key : Option String
  api_url : Option String
  model_name : String
deriving Repr, DecidableEq

/-- The `ollama` section of the configuration dict, keys optional. -/
structure OllamaCfg where
  base_url : Option String := none
  ollama_model : Option String := none
  ai_ollama_timeout : Option Int := none
deriving Repr, DecidableEq

/-- The `api` section of the configuration dict, keys optional. -/
structure ApiCfg where
  api_key : Option String := none
  api_url : Option String := none
  model_name : Option String := none
deriving Repr, DecidableEq

/-- `OllamaProvider.__init__`: read fields with defaults
(`base_url` `http://localhost:11434`, model `llama3`,
`config.get('ai', {}).get('ollama', {}).get('timeout', 30)`). -/
def OllamaProvider.init (config : OllamaCfg) : OllamaProviderState :=
  { base_url := config.base_url.getD "http://localhost:11434",
    model_name := config.ollama_model.getD "llama3",
    timeout := config.ai_ollama_timeout.getD 30 }

/-- `APIProvider.__init__`: read fields with defaults, then
`if not self.api_key or not self.api_url: raise ValueError(...)`. -/
def APIProvider.init (config : ApiCfg) : Except PyExc ApiProviderState :=
  let st : ApiProviderState :=
    { api_key := config.api_key,
      api_url := config.api_url,
      model_name := config.model_name.getD "gpt-4" }
  if !truthyStr st.api_key || !truthyStr st.api_url then
    .error ⟨"ValueError", "API key and URL are required for API provider"⟩
  else .ok st

/-! ### Prompt templates (`_prepare_prompt`)

Each provider renders one fixed template with
`prompt.format(diff=diff_content)`: the diff is substituted verbatim
between the fixed prefix and suffix below.  No size budget, truncation,
or marker appears anywhere in either source function. -/

/-- The API template text before `{diff}`. -/
def apiPromptPrefix : String :=
  "You are a helpful code review assistant. Please analyze the following code changes and provide:\n1. A summary of the changes\n2. Potential issues or improvements\n3. Security considerations\n4. Performance implications\n\nHere are the changes to review:\n\n"

/-- The API template text after `{diff}`. -/
def apiPromptSuffix : String :=
  "\n\nPlease provide your analysis in a clear, structured format."

/-- `APIProvider._prepare_prompt(diff_content, files)` (the `files`
argument is accepted and unused, as in the source). -/
def APIProvider.prepare_prompt (diff_content : String) (_files : List ApiFile) : String :=
  apiPromptPrefix ++ diff_content ++ apiPromptSuffix

/-- The Ollama template text before `{diff}` (textually identical to the
API provider's template). -/
def ollamaPromptPrefix : String :=
  "You are a helpful code review assistant. Please analyze the following code changes and provide:\n1. A summary of the changes\n2. Potential issues or improvements\n3. Security considerations\n4. Performance implications\n\nHere are the changes to review:\n\n"

/-- The Ollama template text after `{diff}`. -/
def ollamaPromptSuffix : String :=
  "\n\nPlease provide your analysis in a clear, structured format."

/-- `OllamaProvider._prepare_prompt(diff_content, files)`. -/
def OllamaProvider.prepare_prompt (diff_content : String) (_files : List ApiFile) : String :=
  ollamaPromptPrefix ++ diff_content ++ ollamaPromptSuffix

/-! ### `analyze_pr` request environments -/

/-- Outcome of the Ollama generate request inside `analyze_pr`'s `try`:
a raised `requests.Timeout`, another raised `requests.RequestException`
(network failure or `raise_for_status` on a non-success status), any
other raised exception, or a decoded JSON body whose `response` field is
absent, a non-string, or a string. -/
inductive OllamaHttpOutcome where
  | timeout (msg : String)
  | reqError (msg : String)
  | otherError (msg : String)
  | ok (responseField : Option PyVal)
deriving Repr, DecidableEq

/-- The three-string manual-review guidance list shared by every
`OllamaProvider.analyze_pr` failure handler. -/
def ollamaFailureSuggestions : List PySuggestion :=
  [.str "Consider running local static analysis tools.",
   .str "Check for potential security issues.",
   .str "Verify code style and best practices."]

/-- `OllamaProvider.analyze_pr`: the `try` body posts the prompt and
parses; `except requests.Timeout`, `except requests.RequestException`
and the broad `except Exception` each return a summary-plus-suggestions
dict.  A missing `response` field (`raise ValueError`), a non-string
`response` (`.split` raising), and a parser exception all land in the
broad handler. -/
def OllamaProvider.analyze_pr (_st : OllamaProviderState) (http : OllamaHttpOutcome)
    (_diff_content : String) (_files : List ApiFile) : PyDictResult :=
  match http with
  | .timeout _ =>
    { summary := some "Analysis timed out. Please review changes manually.",
      suggestions := some ollamaFailureSuggestions, error := none }
  | .reqError _ =>
    { summary := some "Unable to analyze changes. Please review manually.",
      suggestions := some ollamaFailureSuggestions, error := none }
  | .otherError _ =>
    { summary := some "Analysis failed. Please review changes manually.",
      suggestions := some ollamaFailureSuggestions, error := none }
  | .ok responseField =>
    match responseField with
    | some (.str s) =>
      match parse_response s with
      | .ok r =>
        { summary := some r.summary,
          suggestions := some (r.suggestions.map PySuggestion.record), error := none }
      | .error _ =>
        { summary := some "Analysis failed. Please review changes manually.",
          suggestions := some ollamaFailureSuggestions, error := none }
    | some .nonstr =>
      { summary := some "Analysis failed. Please review changes manually.",
        suggestions := some ollamaFailureSuggestions, error := none }
    | none =>
      { summary := some "Analysis failed. Please review changes manually.",
        suggestions := some ollamaFailureSuggestions, error := none }

/-- Outcome of evaluating
`result.get('choices', [{}])[0].get('message', {}).get('content', '')`
on the decoded API response body: a value (string or not), or a raised
exception (`IndexError` on an empty `choices` list, `AttributeError` on
non-dict entries). -/
inductive ApiExtract where
  | content (v : PyVal)
  | raises (exc : PyExc)
deriving Repr, DecidableEq

/-- Outcome of the API POST inside `APIProvider.analyze_pr`'s `try`. -/
inductive ApiHttpOutcome where
  | reqError (msg : String)
  | osError (msg : String)
  | otherError (msg : String)
  | ok (extract : ApiExtract)
deriving Repr, DecidableEq

/-- The `{'error': str(e)}` dict returned by each `except` clause of
`APIProvider.analyze_pr`: neither `summary` nor `suggestions` is present. -/
def apiErrorDict (m : String) : PyDictResult :=
  { summary := none, suggestions := none, error := some m }

/-- `APIProvider._generate_mock_review`: the canned review returned when
`self.api_key` is falsy. -/
def APIProvider.generate_mock_review (_diff_content : String) (files : List ApiFile) :
    PyDictResult :=
  let file_list := files.map (fun f => f.filename.getD "unknown")
  let file_str := if file_list.isEmpty then "no files" else String.intercalate ", " file_list
  { summary := some
      ("⚠️ **This is an automated review.** ⚠️\n\nReviewBuddy couldn't connect to AI services. This is a basic analysis without AI assistance.\n\nChanges were detected in: " ++ file_str),
    suggestions := some
      [.record ⟨"Configure AI providers",
        "To get better reviews, either:\n1. Start Ollama locally (`ollama serve` and `ollama pull llama3`)\n2. Or set an API key via the REVIEWBUDDY_API_KEY environment variable"⟩,
       .record ⟨"Review your code manually",
        "Without AI assistance, please consider:\n- Code style consistency\n- Error handling\n- Security implications\n- Test coverage"⟩],
    error := none }

/-- `APIProvider.analyze_pr`: mock review when `api_key` is falsy,
otherwise the `try` body posts and parses; `except requests.RequestException`,
`except (OSError, IOError)` and the broad `except Exception` each return
`{'error': str(e)}`.  An exception raised while extracting the content or
inside `_parse_response` lands in the broad handler. -/
def APIProvider.analyze_pr (st : ApiProviderState) (http : ApiHttpOutcome)
    (diff_content : String) (files : List ApiFile) : PyDictResult :=
  if !truthyStr st.api_key then APIProvider.generate_mock_review diff_content files
  else
    match http with
    | .reqError m => apiErrorDict m
    | .osError m => apiErrorDict m
    | .otherError m => apiErrorDict m
    | .ok extract =>
      match extract with
      | .raises e => apiErrorDict e.msg
      | .content .nonstr => apiErrorDict "AttributeError: split on non-string content"
      | .content (.str s) =>
        match parse_response s with
        | .ok r =>
          { summary := some r.summary,
            suggestions := some (r.suggestions.map PySuggestion.record), error := none }
        | .error m => apiErrorDict m

/-! ## Provider selector (src/ai_integration.py `get_ai_provider`) -/

/-- The top-level configuration dict as read by `get_ai_provider`. -/
structure TopConfig where
  model_provider : Option String := none
  ollama : Option OllamaCfg := none
  api : Option ApiCfg := none
deriving Repr, DecidableEq

/-- A constructed provider: the local (Ollama) or remote (API) variant. -/
inductive Provider where
  | ollama (st : OllamaProviderState)
  | api (st : ApiProviderState)
deriving Repr, DecidableEq

/-- The `if provider_type == 'api'` tail of `get_ai_provider`: resolve a
credential from the config's `api` section, else from the
`REVIEWBUDDY_API_KEY` environment variable (storing it back via
`config['api']['api_key'] = api_key`, a `KeyError` when the `api`
section is absent), then `return APIProvider(config.get('api', {}))`. -/
def get_ai_provider_apiBranch (config : TopConfig) (env_api_key : Option String) :
    Except PyExc Provider :=
  let api_key := (config.api.getD {}).api_key
  if !truthyStr api_key then
    match env_api_key with
    | some k =>
      if !(k == "") then
        match config.api with
        | none => .error ⟨"KeyError", "api"⟩
        | some a => (APIProvider.init { a with api_key := some k }).map Provider.api
      else (APIProvider.init (config.api.getD {})).map Provider.api
    | none => (APIProvider.init (config.api.getD {})).map Provider.api
  else (APIProvider.init (config.api.getD {})).map Provider.api

/-- `get_ai_provider(config)`: for provider kind `'ollama'`, probe the
daemon's `/api/tags` endpoint with a 5-second timeout (the probe's
outcome — success, or a raised `requests.RequestException`/`ConnectionError`
— is supplied as `probe`); on probe failure fall back to the `'api'`
branch; an unknown kind raises `ValueError`. -/
def get_ai_provider (config : TopConfig) (env_api_key : Option String)
    (probe : Except PyExc Unit) : Except PyExc Provider :=
  let provider_type := config.model_provider.getD "api"
  if provider_type == "ollama" then
    match probe with
    | .ok _ => .ok (.ollama (OllamaProvider.init (config.ollama.getD {})))
    | .error _ => get_ai_provider_apiBranch config env_api_key
  else if provider_type == "api" then
    get_ai_provider_apiBranch config env_api_key
  else
    .error ⟨"ValueError", "Unsupported model provider: " ++ provider_type⟩

/-! ## Static-analysis orchestrator (src/static_analysis.py)

The scratch workspace and the external linter subprocesses are supplied
as environments: a path-existence predicate, a subprocess runner and a
JSON decoder for `run_pylint`'s internals, and — at `run_tool`'s dispatch
boundary — the behavior of each adapter invocation as a result list or a
raised exception. -/

/-- A changed-file descriptor as consumed by `run_static_analysis`
(attributes `filename`, `status`, and the optional `raw_url` / `content`
used by `download_files`). -/
structure PRFile where
  filename : String
  status : String
  raw_url : Option String := none
  content : Option String := none
deriving Repr, DecidableEq

/-- One normalized issue record
`{'file': ..., 'line': ..., 'message': ..., 'severity': ...}`. -/
structure Issue where
  file : String
  line : Int
  message : String
  severity : String
deriving Repr, DecidableEq

/-- The per-tool result dict `{'tool': ..., 'language': ..., 'issues': [...]}`. -/
structure ToolResult where
  tool : String
  language : String
  issues : List Issue
deriving Repr, DecidableEq

/-- The `extensions` table of `group_files_by_language`. -/
def extensions : List (String × String) :=
  [("py", "python"), ("js", "javascript"), ("jsx", "javascript"),
   ("ts", "typescript"), ("tsx", "typescript")]

/-- `filename.split('.')[-1].lower()`. -/
def fileExt (filename : String) : String :=
  pyLower ⟨(splitOnChar '.' filename.data).getLastD []⟩

/-- Append `fname` to the bucket of `lang`, creating the bucket at the
end when absent (Python dict insertion order). -/
def addFileToLang (m : List (String × List String)) (lang fname : String) :
    List (String × List String) :=
  match m with
  | [] => [(lang, [fname])]
  | (l, fs) :: rest =>
    if l == lang then (l, fs ++ [fname]) :: rest
    else (l, fs) :: addFileToLang rest lang fname

/-- `group_files_by_language(files)`: bucket filenames by the extension
table, silently dropping unrecognized extensions. -/
def group_files_by_language (files : List PRFile) : List (String × List String) :=
  files.foldl
    (fun m f =>
      match extensions.lookup (fileExt f.filename) with
      | some lang => addFileToLang m lang f.filename
      | none => m)
    []

/-- `download_files(files, temp_dir)`: every file whose status is not
`'removed'` is opened for writing (so it exists in the workspace even
when fetching its content fails or no content is available); removed
files are never materialized.  Returns the materialized filenames. -/
def download_files (files : List PRFile) (_fetch : String → Except PyExc String) :
    List String :=
  files.foldl (fun acc f => if f.status == "removed" then acc else acc ++ [f.filename]) []

/-- `os.path.join(temp_dir, file)` for the abstract workspace paths. -/
def pjoin (dir f : String) : String := dir ++ "/" ++ f

/-- The workspace `os.path.exists` predicate induced by `download_files`. -/
def pathExistsOf (files : List PRFile) (fetch : String → Except PyExc String)
    (temp_dir : String) : String → Bool :=
  fun p => ((download_files files fetch).map (pjoin temp_dir)).contains p

/-- One record of pylint's JSON output, each key read with `.get` and a
default. -/
structure PylintRecord where
  type : Option String := none
  path : Option String := none
  line : Option Int := none
  message : Option String := none
deriving Repr, DecidableEq

/-- Stdout captured from a subprocess (`check=False`: a non-zero exit
code is not fatal, stdout is the sole result channel). -/
structure SubprocResult where
  stdout : String
deriving Repr, DecidableEq

/-- Environment for `run_pylint`'s internals: the workspace existence
predicate, the subprocess invocation (which may raise, e.g.
`FileNotFoundError` when the binary is missing), and `json.loads`
applied to its stdout (`none` for a decode failure or a body that is not
a list of records). -/
structure PylintEnv where
  pathExists : String → Bool
  subproc : List String → Except PyExc SubprocResult
  parseJson : String → Option (List PylintRecord)

/-- `run_pylint(file_list, temp_dir, severity_threshold)`: filter to
files existing in the workspace, short-circuit to `[]` when none remain,
invoke pylint, decode its stdout, map severities and filter by the
threshold.  Its own `try/except` converts every raised exception into
the issues accumulated so far (the empty list). -/
def run_pylint (env : PylintEnv) (file_list : List String) (temp_dir : String)
    (severity_threshold : String) : List Issue :=
  let file_paths := (file_list.map (pjoin temp_dir)).filter env.pathExists
  if file_paths.isEmpty then []
  else
    match env.subproc (["pylint", "--output-format=json"] ++ file_paths) with
    | .error _ => []
    | .ok res =>
      if res.stdout == "" then []
      else
        match env.parseJson res.stdout with
        | none => []
        | some recs =>
          recs.foldl
            (fun issues rec =>
              let severity := map_pylint_severity (rec.type.getD "")
              if is_severity_included severity severity_threshold then
                issues ++ [{ file := (rec.path.getD "").replace (temp_dir ++ "/") "",
                             line := rec.line.getD 0,
                             message := rec.message.getD "",
                             severity := severity }]
              else issues)
            []

/-- The behavior of each adapter invocation at `run_tool`'s dispatch
boundary: a returned issue list, or a raised exception caught by
`run_tool`'s `except subprocess.SubprocessError` / `except Exception`. -/
structure ToolDispatch where
  pylint : List String → String → String → Except PyExc (List Issue)
  flake8 : List String → String → String → Except PyExc (List Issue)
  eslint : List String → String → String → String → Except PyExc (List Issue)

/-- The dispatch behavior realized by the modelled `run_pylint` (whose
internal `try/except` makes it total, so it never raises). -/
def pylintAsDispatch (env : PylintEnv) : List String → String → String →
    Except PyExc (List Issue) :=
  fun file_list temp_dir threshold => .ok (run_pylint env file_list temp_dir threshold)

/-- The `static_analysis` section of the configuration dict. -/
structure StaticAnalysisCfg where
  enabled : Option Bool := none
  severity_threshold : Option String := none
  tools : Option (List (String × List String)) := none
deriving Repr, DecidableEq

/-- The configuration dict as read by `run_static_analysis` / `run_tool`. -/
structure AnalysisConfig where
  static_analysis : Option StaticAnalysisCfg := none
deriving Repr, DecidableEq

/-- `config.get('static_analysis', {})`. -/
def AnalysisConfig.sa (c : AnalysisConfig) : StaticAnalysisCfg :=
  c.static_analysis.getD {}

/-- `run_tool(tool, language, file_list, temp_dir, config)`: `None` on an
empty file list; dispatch the supported (tool, language) pairs; `None`
for an unsupported pair; the `except` clauses turn a raised exception
into `None`; otherwise the result dict (a non-empty, hence truthy,
Python dict even when `issues` is empty). -/
def run_tool (d : ToolDispatch) (tool language : String) (file_list : List String)
    (temp_dir : String) (config : AnalysisConfig) : Option ToolResult :=
  if file_list.isEmpty then none
  else
    let severity_threshold := config.sa.severity_threshold.getD "warning"
    let outcome : Option (Except PyExc (List Issue)) :=
      if tool == "pylint" && language == "python" then
        some (d.pylint file_list temp_dir severity_threshold)
      else if tool == "flake8" && language == "python" then
        some (d.flake8 file_list temp_dir severity_threshold)
      else if tool == "eslint" && (language == "javascript" || language == "typescript") then
        some (d.eslint file_list temp_dir severity_threshold language)
      else none
    match outcome with
    | none => none
    | some (.error _) => none
    | some (.ok issues) => some { tool := tool, language := language, issues := issues }

/-- Python dict assignment `results[tool] = tool_results`: replace in
place when the key exists, append otherwise. -/
def dictInsert {α : Type} (m : List (String × α)) (k : String) (v : α) :
    List (String × α) :=
  match m with
  | [] => [(k, v)]
  | (k', v') :: rest => if k' == k then (k, v) :: rest else (k', v') :: dictInsert rest k v

/-- `run_static_analysis(files, config)`: empty report when disabled;
group files by language; for each configured (language, tool) pair run
`run_tool` and store the result under the tool's name when it is truthy
(`if tool_results:` — any returned dict is non-empty, hence truthy). -/
def run_static_analysis (files : List PRFile) (config : AnalysisConfig)
    (d : ToolDispatch) (temp_dir : String) : List (String × ToolResult) :=
  if !(config.sa.enabled.getD true) then []
  else
    let files_by_language := group_files_by_language files
    let tools_config := (config.sa.tools).getD []
    files_by_language.foldl
      (fun results entry =>
        ((tools_config.lookup entry.1).getD []).foldl
          (fun results tool =>
            match run_tool d tool entry.1 entry.2 temp_dir config with
            | some r => dictInsert results tool r
            | none => results)
          results)
      []

/-! ## Auxiliary definitions for the claims -/

/-- A string with no leading and no trailing Python whitespace. -/
def noEdgeWhitespace (s : String) : Prop :=
  (∀ c, s.data.head? = some c → pyIsSpace c = false) ∧
  (∀ c, s.data.getLast? = some c → pyIsSpace c = false)

/-- A suggestion description as the parser builds it: empty, or ending in
the space appended after each collected line. -/
def descTrailingSpace (s : Suggestion) : Prop :=
  s.description = "" ∨ s.description.data.getLast? = some ' '

/-- A 100000-character diff, larger than any plausible prompt budget. -/
def bigDiff : String := ⟨List.replicate 100000 'a'⟩

/-- `static_analysis` configuration with pylint as the only python tool. -/
def pylintOnlyConfig : AnalysisConfig :=
  ⟨some ⟨some true, some "warning", some [("python", ["pylint"])]⟩⟩

/-- `static_analysis` configuration with pylint then flake8 for python. -/
def pylintFlake8Config : AnalysisConfig :=
  ⟨some ⟨some true, some "warning", some [("python", ["pylint", "flake8"])]⟩⟩

/-- A concrete single removed python file, as a change set. -/
def removedPyFile : List PRFile := [⟨"a.py", "removed", none, none⟩]

/-- A concrete workspace environment for `run_pylint` in which the
existence predicate is the one induced by downloading `removedPyFile`
(no file is materialized). -/
def removedPyEnv : PylintEnv :=
  { pathExists := pathExistsOf removedPyFile (fun _ => .ok "") "/workspace",
    subproc := fun _ => .ok ⟨""⟩,
    parseJson := fun _ => none }

/-- A concrete dispatch environment in which the pylint invocation raises
a `SubprocessError` and the flake8 invocation returns no issues. -/
def failingPylintDispatch : ToolDispatch :=
  { pylint := fun _ _ _ => .error ⟨"SubprocessError", "pylint crashed"⟩,
    flake8 := fun _ _ _ => .ok [],
    eslint := fun _ _ _ _ => .ok [] }

/-! ## Helper lemmas (shared) -/

theorem head?_dropWhile_false (p : Char → Bool) :
    ∀ (l : List Char) (c : Char), (l.dropWhile p).head? = some c → p c = false := by
  intro l
  induction l with
  | nil => intro c h; simp [List.dropWhile] at h
  | cons a t ih =>
    intro c h
    by_cases hp : p a
    · rw [List.dropWhile_cons_of_pos hp] at h
      exact ih c h
    · rw [List.dropWhile_cons_of_neg hp] at h
      simp only [List.head?_cons, Option.some.injEq] at h
      subst h
      exact Bool.eq_false_iff.mpr hp

theorem getLast?_dropWhile_of_ne_nil (p : Char → Bool) :
    ∀ (l : List Char), l.dropWhile p ≠ [] →
      (l.dropWhile p).getLast? = l.getLast? := by
  intro l
  induction l with
  | nil => intro h; simp [List.dropWhile] at h
  | cons a t ih =>
    intro h
    by_cases hp : p a
    · rw [List.dropWhile_cons_of_pos hp] at h ⊢
      rw [ih h]
      have ht : t ≠ [] := by
        intro he; rw [he] at h; simp [List.dropWhile] at h
      cases t with
      | nil => exact absurd rfl ht
      | cons b t' => rw [List.getLast?_cons_cons]
    · rw [List.dropWhile_cons_of_neg hp]

theorem string_data_append (s t : String) : (s ++ t).data = s.data ++ t.data := rfl

theorem noEdgeWhitespace_pyStrip (s : String) : noEdgeWhitespace (pyStrip s) := by
  constructor
  · intro c h
    have hdata : (pyStrip s).data = ((s.data.dropWhile pyIsSpace).reverse.dropWhile pyIsSpace).reverse := rfl
    rw [hdata, List.head?_reverse] at h
    by_cases hnil : (s.data.dropWhile pyIsSpace).reverse.dropWhile pyIsSpace = []
    · rw [hnil] at h; simp at h
    · rw [getLast?_dropWhile_of_ne_nil pyIsSpace _ hnil, List.getLast?_reverse] at h
      exact head?_dropWhile_false pyIsSpace _ c h
  · intro c h
    have hdata : (pyStrip s).data = ((s.data.dropWhile pyIsSpace).reverse.dropWhile pyIsSpace).reverse := rfl
    rw [hdata, List.getLast?_reverse] at h
    exact head?_dropWhile_false pyIsSpace _ c h

theorem descTrailingSpace_extend (c : Suggestion) (line : String) :
    descTrailingSpace ⟨c.title, c.description ++ line ++ " "⟩ := by
  right
  show (c.description ++ line ++ " ").data.getLast? = some ' '
  rw [string_data_append]
  exact List.getLast?_concat _

theorem string_length_append (s t : String) : (s ++ t).length = s.length + t.length := by
  show (s ++ t).data.length = s.data.length + t.data.length
  rw [string_data_append, List.length_append]

theorem mem_appendCur {s : Suggestion} {sugg : List Suggestion} {cur : Option Suggestion}
    (h : s ∈ appendCur sugg cur) : s ∈ sugg ∨ cur = some s := by
  cases cur with
  | none => exact Or.inl h
  | some c =>
    simp only [appendCur, List.mem_append, List.mem_singleton] at h
    rcases h with h | h
    · exact Or.inl h
    · exact Or.inr (by rw [h])

theorem parseLoop_descs (allLines : List String) :
    ∀ (rest : List String) (summary : String) (sugg : List Suggestion)
      (cur : Option Suggestion) (out : String × List Suggestion × Option Suggestion),
      parseLoop allLines rest summary sugg cur = .ok out →
      (∀ s ∈ sugg, descTrailingSpace s) →
      (∀ c, cur = some c → descTrailingSpace c) →
      (∀ s ∈ out.2.1, descTrailingSpace s) ∧
      (∀ c, out.2.2 = some c → descTrailingSpace c) := by
  intro rest
  induction rest with
  | nil =>
    intro summary sugg cur out h hs hc
    simp only [parseLoop, Except.ok.injEq] at h
    subst h
    exact ⟨hs, hc⟩
  | cons l t ih =>
    intro summary sugg cur out h hs hc
    rw [parseLoop] at h
    split at h
    · exact ih summary sugg cur out h hs hc
    · split at h
      · exact Except.noConfusion h
      · split at h
        · exact Except.noConfusion h
        · refine ih _ _ _ out h ?_ ?_
          · intro s hmem
            rcases mem_appendCur hmem with hmem' | hmem'
            · exact hs s hmem'
            · exact hc s hmem'
          · intro c hcc
            injection hcc with hcc
            subst hcc
            exact Or.inl rfl
        · split at h
          · refine ih _ _ _ out h hs ?_
            intro c' hcc
            injection hcc with hcc
            subst hcc
            exact descTrailingSpace_extend _ _
          · refine ih _ _ _ out h hs ?_
            intro c hcc
            exact Option.noConfusion hcc

/-! ## Claim theorems -/

/-- Claim C3: for severities and thresholds drawn from the closed set
{error, warning, info} with ordinals error=3, warning=2, info=1,
`is_severity_included s t` holds iff ordinal(s) ≥ ordinal(t); in
particular included(error, "info") is true and included(info, "error")
is false. -/
theorem c3_included_iff_ordinal (s t : String)
    (hs : s ∈ (["error", "warning", "info"] : List String))
    (ht : t ∈ (["error", "warning", "info"] : List String)) :
    (is_severity_included s t = true ↔ claimOrdinal t ≤ claimOrdinal s) ∧
    is_severity_included "error" "info" = true ∧
    is_severity_included "info" "error" = false := by
  fin_cases hs <;> fin_cases ht <;> exact ⟨by decide, by decide, by decide⟩

/-- Witness for C3 at severity "error", threshold "info". -/
theorem c3_included_iff_ordinal_witness :
    (is_severity_included "error" "info" = true ↔
      claimOrdinal "info" ≤ claimOrdinal "error") ∧
    is_severity_included "error" "info" = true ∧
    is_severity_included "info" "error" = false :=
  c3_included_iff_ordinal "error" "info" (by decide) (by decide)

/-- Claim C4: parsing the given model response yields exactly two
suggestions, titled "First title" and "Second title" with the bullet
markers stripped, whose descriptions contain "First description." and
"Second description." respectively. -/
theorem c4_two_suggestions :
    parse_response "Summary\nThis is a test summary.\n\nSuggestions\n1. First title\n   First description.\n\n2. Second title\n   Second description." =
      .ok { summary := "This is a test summary.",
            suggestions := [{ title := "First title", description := "First description. " },
                            { title := "Second title", description := "Second description. " }] } ∧
    containsSub "First description. " "First description." = true ∧
    containsSub "Second description. " "Second description." = true :=
  ⟨rfl, by decide, by decide⟩

/-- Claim C10: the response parser is partial in the source — a line
whose stripped form is a single digit makes `line[1]` raise `IndexError`
after only `line[0].isdigit()` was checked; the embedding returns an
error value on that branch. -/
theorem c10_single_digit_raises_index_error :
    parse_response "5" = .error "IndexError" := rfl

/-- Claim C2 (failing evaluation): with provider kind "ollama", a failed
probe, no credential in the configuration and none in the environment,
`get_ai_provider` does not return the remote provider — it raises
`ValueError` from `APIProvider.__init__`. -/
theorem c2_fallback_without_credential_raises :
    get_ai_provider { model_provider := some "ollama", ollama := none, api := none }
      none (.error ⟨"ConnectionError", "Ollama not available"⟩) =
    .error ⟨"ValueError", "API key and URL are required for API provider"⟩ := rfl

/-- Claim C6 (counterexample): `is_severity_included` does not treat an
unknown severity as info — the unknown string maps to ordinal 0, so
included("unknown", "info") is false while included("info", "info") is
true, refuting the claimed equality. -/
theorem c6_unknown_severity_counterexample :
    is_severity_included "unknown" "info" = false ∧
    is_severity_included "info" "info" = true := by decide

/-- Claim C1 (counterexample): on a network error, `APIProvider.analyze_pr`
returns the `{'error': ...}` dict, which has neither a summary nor a
suggestions field. -/
theorem c1_api_error_dict_counterexample :
    (APIProvider.analyze_pr ⟨some "key", some "https://api.example", "gpt-4"⟩
       (.reqError "connection refused") "diff" []).summary = none ∧
    (APIProvider.analyze_pr ⟨some "key", some "https://api.example", "gpt-4"⟩
       (.reqError "connection refused") "diff" []).suggestions = none ∧
    (APIProvider.analyze_pr ⟨some "key", some "https://api.example", "gpt-4"⟩
       (.reqError "connection refused") "diff" []).error = some "connection refused" := by
  decide

/-- Claim C8 (counterexample): a suggestion description is returned with
its accumulated trailing space — it is not trimmed. -/
theorem c8_description_not_trimmed_counterexample :
    parse_response "- T\nx" =
      .ok { summary := "", suggestions := [{ title := "T", description := "x " }] } ∧
    pyStrip "x " ≠ "x " := ⟨rfl, by decide⟩

/-- Claim C9 (counterexample): a 100000-character diff renders to a
prompt far beyond any fixed size budget, and both providers pass it on
unmodified — the diff is embedded verbatim between the fixed template
prefix and suffix, with no truncation and no marker. -/
theorem c9_no_truncation_counterexample :
    APIProvider.prepare_prompt bigDiff [] = apiPromptPrefix ++ bigDiff ++ apiPromptSuffix ∧
    OllamaProvider.prepare_prompt bigDiff [] =
      ollamaPromptPrefix ++ bigDiff ++ ollamaPromptSuffix ∧
    100000 ≤ (APIProvider.prepare_prompt bigDiff []).length := by
  refine ⟨rfl, rfl, ?_⟩
  have hbig : bigDiff.length = 100000 := by
    rw [show bigDiff.length = (List.replicate 100000 'a').length from rfl]
    exact List.length_replicate _ _
  have h : (APIProvider.prepare_prompt bigDiff []).length =
      apiPromptPrefix.length + bigDiff.length + apiPromptSuffix.length := by
    rw [APIProvider.prepare_prompt, string_length_append, string_length_append]
  rw [h, hbig]
  omega

/-- Claim C9 (amended): neither provider applies any size budget —
`_prepare_prompt` embeds the diff verbatim into the fixed template
whatever its size, so the rendered prompt's length always exceeds the
diff's, and no truncation or marker is ever applied. -/
theorem c9_prompt_embeds_diff_verbatim (diff : String) (files : List ApiFile) :
    APIProvider.prepare_prompt diff files = apiPromptPrefix ++ diff ++ apiPromptSuffix ∧
    OllamaProvider.prepare_prompt diff files =
      ollamaPromptPrefix ++ diff ++ ollamaPromptSuffix ∧
    (APIProvider.prepare_prompt diff files).length =
      apiPromptPrefix.length + diff.length + apiPromptSuffix.length ∧
    (OllamaProvider.prepare_prompt diff files).length =
      ollamaPromptPrefix.length + diff.length + ollamaPromptSuffix.length := by
  refine ⟨rfl, rfl, ?_, ?_⟩
  · show (apiPromptPrefix ++ diff ++ apiPromptSuffix).length =
      apiPromptPrefix.length + diff.length + apiPromptSuffix.length
    rw [string_length_append, string_length_append]
  · show (ollamaPromptPrefix ++ diff ++ ollamaPromptSuffix).length =
      ollamaPromptPrefix.length + diff.length + ollamaPromptSuffix.length
    rw [string_length_append, string_length_append]

/-- Claim C1 (amended): neither provider raises past `analyze_pr`.
`OllamaProvider.analyze_pr` returns a dict with summary and suggestions
present (and no error field) on every outcome, and each of its failure
handlers returns its exact short-explanation-plus-guidance dict.
`APIProvider.analyze_pr` returns summary and suggestions on the parse
success path and on its missing-credential mock path, but on every
caught exception — network error/timeout, OS error, any other exception,
an extraction raise on the response envelope, a non-string content
field, and a parser exception — it returns exactly `{'error': str(e)}`,
which carries neither summary nor suggestions. -/
theorem c1_never_raises_result_shape (ost : OllamaProviderState) (oh : OllamaHttpOutcome)
    (ast : ApiProviderState) (ah : ApiHttpOutcome) (d1 d2 : String)
    (fs1 fs2 : List ApiFile) :
    ((OllamaProvider.analyze_pr ost oh d1 fs1).summary.isSome = true ∧
     (OllamaProvider.analyze_pr ost oh d1 fs1).suggestions.isSome = true ∧
     (OllamaProvider.analyze_pr ost oh d1 fs1).error = none) ∧
    (∀ m, OllamaProvider.analyze_pr ost (.timeout m) d1 fs1 =
      ⟨some "Analysis timed out. Please review changes manually.",
       some ollamaFailureSuggestions, none⟩) ∧
    (∀ m, OllamaProvider.analyze_pr ost (.reqError m) d1 fs1 =
      ⟨some "Unable to analyze changes. Please review manually.",
       some ollamaFailureSuggestions, none⟩) ∧
    (∀ m, OllamaProvider.analyze_pr ost (.otherError m) d1 fs1 =
      ⟨some "Analysis failed. Please review changes manually.",
       some ollamaFailureSuggestions, none⟩) ∧
    (truthyStr ast.api_key = false →
      APIProvider.analyze_pr ast ah d2 fs2 = APIProvider.generate_mock_review d2 fs2) ∧
    ((APIProvider.generate_mock_review d2 fs2).summary.isSome = true ∧
     (APIProvider.generate_mock_review d2 fs2).suggestions.isSome = true ∧
     (APIProvider.generate_mock_review d2 fs2).error = none) ∧
    (∀ s r, truthyStr ast.api_key = true → parse_response s = .ok r →
      APIProvider.analyze_pr ast (.ok (.content (.str s))) d2 fs2 =
        ⟨some r.summary, some (r.suggestions.map PySuggestion.record), none⟩) ∧
    (truthyStr ast.api_key = true →
      (∀ m, APIProvider.analyze_pr ast (.reqError m) d2 fs2 = apiErrorDict m) ∧
      (∀ m, APIProvider.analyze_pr ast (.osError m) d2 fs2 = apiErrorDict m) ∧
      (∀ m, APIProvider.analyze_pr ast (.otherError m) d2 fs2 = apiErrorDict m) ∧
      (∀ e, APIProvider.analyze_pr ast (.ok (.raises e)) d2 fs2 = apiErrorDict e.msg) ∧
      (APIProvider.analyze_pr ast (.ok (.content .nonstr)) d2 fs2 =
        apiErrorDict "AttributeError: split on non-string content") ∧
      (∀ s m, parse_response s = .error m →
        APIProvider.analyze_pr ast (.ok (.content (.str s))) d2 fs2 = apiErrorDict m)) ∧
    (∀ m, (apiErrorDict m).summary = none ∧ (apiErrorDict m).suggestions = none ∧
      (apiErrorDict m).error = some m) := by
  refine ⟨?_, ?_, ?_, ?_, ?_, ?_, ?_, ?_, ?_⟩
  · cases oh with
    | timeout m => exact ⟨rfl, rfl, rfl⟩
    | reqError m => exact ⟨rfl, rfl, rfl⟩
    | otherError m => exact ⟨rfl, rfl, rfl⟩
    | ok rf =>
      match rf with
      | none => exact ⟨rfl, rfl, rfl⟩
      | some .nonstr => exact ⟨rfl, rfl, rfl⟩
      | some (.str s) =>
        cases hp : parse_response s with
        | ok r => simp [OllamaProvider.analyze_pr, hp]
        | error e => simp [OllamaProvider.analyze_pr, hp]
  · intro m; rfl
  · intro m; rfl
  · intro m; rfl
  · intro hk; simp [APIProvider.analyze_pr, hk]
  · exact ⟨rfl, rfl, rfl⟩
  · intro s r hk hp; simp [APIProvider.analyze_pr, hk, hp]
  · intro hk
    refine ⟨?_, ?_, ?_, ?_, ?_, ?_⟩
    · intro m; simp [APIProvider.analyze_pr, hk]
    · intro m; simp [APIProvider.analyze_pr, hk]
    · intro m; simp [APIProvider.analyze_pr, hk]
    · intro e; simp [APIProvider.analyze_pr, hk]
    · simp [APIProvider.analyze_pr, hk]
    · intro s m hp; simp [APIProvider.analyze_pr, hk, hp]
  · intro m; exact ⟨rfl, rfl, rfl⟩

/-- Witness for the amended C1: the Ollama timeout dict, the API mock
path on a missing credential, the API success path on a parse-ok
response, and two caught-exception paths (network error and a parser
`IndexError`) each returning the exact dict the theorem states. -/
theorem c1_never_raises_result_shape_witness :
    OllamaProvider.analyze_pr ⟨"http://localhost:11434", "llama3", 30⟩
        (.timeout "timed out") "diff" [] =
      ⟨some "Analysis timed out. Please review changes manually.",
       some ollamaFailureSuggestions, none⟩ ∧
    APIProvider.analyze_pr ⟨none, none, "gpt-4"⟩ (.reqError "boom") "diff" [] =
      APIProvider.generate_mock_review "diff" [] ∧
    APIProvider.analyze_pr ⟨some "k", some "u", "gpt-4"⟩
        (.ok (.content (.str "- A\nb"))) "diff" [] =
      ⟨some "", some [PySuggestion.record ⟨"A", "b "⟩], none⟩ ∧
    APIProvider.analyze_pr ⟨some "k", some "u", "gpt-4"⟩ (.reqError "boom") "diff" [] =
      apiErrorDict "boom" ∧
    APIProvider.analyze_pr ⟨some "k", some "u", "gpt-4"⟩
        (.ok (.content (.str "5"))) "diff" [] =
      apiErrorDict "IndexError" := by
  have h1 := c1_never_raises_result_shape ⟨"http://localhost:11434", "llama3", 30⟩
    (.timeout "timed out") ⟨none, none, "gpt-4"⟩ (.reqError "boom") "diff" "diff" [] []
  have h2 := c1_never_raises_result_shape ⟨"http://localhost:11434", "llama3", 30⟩
    (.timeout "timed out") ⟨some "k", some "u", "gpt-4"⟩ (.reqError "boom")
    "diff" "diff" [] []
  obtain ⟨-, hTimeout, -, -, hMock, -, -, -, -⟩ := h1
  obtain ⟨-, -, -, -, -, -, hSucc, hExc, -⟩ := h2
  obtain ⟨hReq, -, -, -, -, hParseErr⟩ := hExc rfl
  exact ⟨hTimeout "timed out", hMock rfl,
    hSucc "- A\nb" ⟨"", [⟨"A", "b "⟩]⟩ rfl rfl, hReq "boom",
    hParseErr "5" "IndexError" rfl⟩

/-- Claim C6 (amended): `is_severity_included` maps a severity string
outside the closed set (after lowercasing) to ordinal 0, strictly below
every threshold of the set, so such a severity is always excluded —
included(u, t) = false for every t in {error, warning, info} (the
mapping of unknown native categories to info happens earlier, in
`map_pylint_severity`). -/
theorem c6_unknown_severity_always_excluded (u t : String)
    (hu : pyLower u ∉ (["error", "warning", "info"] : List String))
    (ht : t ∈ (["error", "warning", "info"] : List String)) :
    is_severity_included u t = false := by
  simp only [List.mem_cons, List.mem_singleton, List.not_mem_nil, or_false, not_or] at hu
  obtain ⟨h1, h2, h3⟩ := hu
  have b1 : (pyLower u == "error") = false := beq_eq_false_iff_ne.mpr h1
  have b2 : (pyLower u == "warning") = false := beq_eq_false_iff_ne.mpr h2
  have b3 : (pyLower u == "info") = false := beq_eq_false_iff_ne.mpr h3
  have hnone : severity_levels.lookup (pyLower u) = none := by
    simp [severity_levels, List.lookup, b1, b2, b3]
  fin_cases ht <;> simp [is_severity_included, hnone] <;> decide

/-- Witness for the amended C6 at the unknown severity "unknown" and
threshold "warning". -/
theorem c6_unknown_severity_always_excluded_witness :
    is_severity_included "unknown" "warning" = false :=
  c6_unknown_severity_always_excluded "unknown" "warning" (by decide) (by decide)

/-- Claim C8 (amended): for every input on which the parser succeeds, the
returned summary is trimmed of surrounding whitespace, but the
descriptions are not trimmed — each is empty or ends with the space the
loop appends after every collected line. -/
theorem c8_summary_trimmed_descriptions_not (text : String) (r : ReviewResult)
    (h : parse_response text = .ok r) :
    noEdgeWhitespace r.summary ∧ ∀ s ∈ r.suggestions, descTrailingSpace s := by
  rw [parse_response] at h
  cases hloop : parseLoop (pySplitNewline text) (pySplitNewline text) "" [] none with
  | error e => rw [hloop] at h; exact Except.noConfusion h
  | ok out =>
    rw [hloop] at h
    obtain ⟨summary, sugg, cur⟩ := out
    simp only [Except.ok.injEq] at h
    subst h
    have hinv := parseLoop_descs (pySplitNewline text) (pySplitNewline text)
      "" [] none (summary, sugg, cur) hloop
      (by intro s hmem; exact absurd hmem (List.not_mem_nil s))
      (by intro c hcc; exact Option.noConfusion hcc)
    refine ⟨noEdgeWhitespace_pyStrip summary, ?_⟩
    intro s hmem
    rcases mem_appendCur hmem with hmem' | hmem'
    · exact hinv.1 s hmem'
    · exact hinv.2 s hmem'

/-- Witness for the amended C8 at the input "- A\nb". -/
theorem c8_summary_trimmed_descriptions_not_witness :
    noEdgeWhitespace (ReviewResult.mk "" [⟨"A", "b "⟩]).summary ∧
    ∀ s ∈ (ReviewResult.mk "" [⟨"A", "b "⟩]).suggestions, descTrailingSpace s :=
  c8_summary_trimmed_descriptions_not "- A\nb" ⟨"", [⟨"A", "b "⟩]⟩ rfl

/-- Claim C5 (counterexample): with one removed python file (so nothing
is materialized in the workspace) and pylint configured, the orchestrator
returns a report in which the pylint entry IS present, mapped to an
empty issue list — it is not omitted. -/
theorem c5_empty_tool_entry_present_counterexample :
    run_static_analysis removedPyFile pylintOnlyConfig
      ⟨pylintAsDispatch removedPyEnv, fun _ _ _ => .ok [], fun _ _ _ _ => .ok []⟩
      "/workspace"
    = [("pylint", { tool := "pylint", language := "python", issues := [] })] := rfl

/-- Claim C5 (amended): when a configured tool is dispatched with a
non-empty file list but no file was materialized in the workspace (every
file of its language removed), the adapter short-circuits to an empty
issue list, `run_tool` wraps it in a (truthy) result dict, and the
orchestrator keeps the entry: the tool appears in the report mapped to
an empty issue list.  Omission happens only for an empty file list, an
unsupported (tool, language) pair, or a dispatch that raises. -/
theorem c5_unmaterialized_tool_entry_present (name temp_dir : String) (env : PylintEnv)
    (fetch : String → Except PyExc String)
    (f8 : List String → String → String → Except PyExc (List Issue))
    (es : List String → String → String → String → Except PyExc (List Issue))
    (hext : fileExt name = "py")
    (hex : env.pathExists = pathExistsOf [⟨name, "removed", none, none⟩] fetch temp_dir) :
    run_static_analysis [⟨name, "removed", none, none⟩] pylintOnlyConfig
      ⟨pylintAsDispatch env, f8, es⟩ temp_dir
    = [("pylint", { tool := "pylint", language := "python", issues := [] })] := by
  have hfe : ∀ p, env.pathExists p = false := by
    intro p; rw [hex]; rfl
  have hgrp : group_files_by_language [⟨name, "removed", none, none⟩] =
      [("python", [name])] := by
    show (match extensions.lookup (fileExt name) with
          | some lang => addFileToLang [] lang name
          | none => []) = [("python", [name])]
    rw [hext]
    rfl
  have hpyl : run_pylint env [name] temp_dir "warning" = [] := by
    simp [run_pylint, List.filter, hfe]
  simp only [run_static_analysis, AnalysisConfig.sa, pylintOnlyConfig, hgrp]
  simp only [Option.getD_some, Bool.not_true, Bool.false_eq_true, if_false,
    List.foldl_cons, List.foldl_nil]
  simp [run_tool, pylintAsDispatch, hpyl, dictInsert, AnalysisConfig.sa, List.lookup]

/-- Witness for the amended C5 at the file "b.py" and workspace "/w". -/
theorem c5_unmaterialized_tool_entry_present_witness :
    run_static_analysis [⟨"b.py", "removed", none, none⟩] pylintOnlyConfig
      ⟨pylintAsDispatch
        ⟨pathExistsOf [⟨"b.py", "removed", none, none⟩] (fun _ => .ok "") "/w",
         fun _ => .ok ⟨""⟩, fun _ => none⟩,
       fun _ _ _ => .ok [], fun _ _ _ _ => .ok []⟩ "/w"
    = [("pylint", { tool := "pylint", language := "python", issues := [] })] :=
  c5_unmaterialized_tool_entry_present "b.py" "/w"
    ⟨pathExistsOf [⟨"b.py", "removed", none, none⟩] (fun _ => .ok "") "/w",
     fun _ => .ok ⟨""⟩, fun _ => none⟩
    (fun _ => .ok "") (fun _ _ _ => .ok []) (fun _ _ _ _ => .ok [])
    (by decide) rfl

/-- Claim C7: with pylint then flake8 configured for python, a pylint
dispatch that raises any exception is logged and omitted, and the flake8
results still appear in the final report — one tool's failure never
aborts the run. -/
theorem c7_tool_failure_isolated (name temp_dir : String) (e : PyExc)
    (issues : List Issue) (d : ToolDispatch)
    (hext : fileExt name = "py")
    (hp : d.pylint [name] temp_dir "warning" = .error e)
    (hf : d.flake8 [name] temp_dir "warning" = .ok issues) :
    run_static_analysis [⟨name, "added", none, none⟩] pylintFlake8Config d temp_dir
    = [("flake8", { tool := "flake8", language := "python", issues := issues })] := by
  have hgrp : group_files_by_language [⟨name, "added", none, none⟩] =
      [("python", [name])] := by
    show (match extensions.lookup (fileExt name) with
          | some lang => addFileToLang [] lang name
          | none => []) = [("python", [name])]
    rw [hext]
    rfl
  simp only [run_static_analysis, AnalysisConfig.sa, pylintFlake8Config, hgrp]
  simp only [Option.getD_some, Bool.not_true, Bool.false_eq_true, if_false,
    List.foldl_cons, List.foldl_nil]
  simp [run_tool, AnalysisConfig.sa, List.lookup, hp, hf, dictInsert]

/-- Witness for C7 with the concrete failing-pylint dispatch environment. -/
theorem c7_tool_failure_isolated_witness :
    run_static_analysis [⟨"a.py", "added", none, none⟩] pylintFlake8Config
      failingPylintDispatch "/w"
    = [("flake8", { tool := "flake8", language := "python", issues := [] })] :=
  c7_tool_failure_isolated "a.py" "/w" ⟨"SubprocessError", "pylint crashed"⟩ []
    failingPylintDispatch (by decide) rfl rfl
